import Mathlib

/-!
# Order service (`src/server.js`): header and line-item persistence

A shallow embedding of the six order routes of `src/server.js`
(`GET /ordenes`, `GET /ordenes/:id`, `POST /ordenes`, `PUT /ordenes/:id`,
`DELETE /ordenes/:id`, `PATCH /ordenes/:id/estado`) over an explicit model of
the two tables `ordenes` and `detalle_orden`.

Modelling decisions, all visible in the definitions below:

* JavaScript numbers are exact integers plus `NaN` (`JSNum`); rounding,
  fractions and infinities of IEEE doubles are outside the model.
* Values that reach the handlers from the JSON body are JSON primitives or
  absent (`Prim`); nested arrays and objects as field values are not modelled.
* `Number(s)` on a string `s` is the runtime's StringToNumber; it is a
  parameter `strNum` of every definition that coerces, so every theorem holds
  for every such function.
* Every awaited call on the connection (`getConn`, `conn.query`, `conn.end`)
  can reject.  A handler stops at the first rejection (its `catch` answers 500
  and issues no further call), so one run is determined by the number of calls
  that succeed before the first rejection: the budget `k : Option Nat`
  (`none`: nothing rejects).
* The path parameter `Number(req.params.id)` is a row id, a natural number.
* A table keeps the bind parameters it was given (`undefined` is sent as
  `NULL`); conversions by column types are not modelled, since the table
  definitions are not part of the source.
-/

namespace Ordenes

/-! ## Values -/

/-- A JavaScript number: `NaN` or an exact integer. -/
inductive JSNum where
  | nan
  | fin (n : Int)
  deriving DecidableEq, Repr

/-- Addition of numbers, `sum + x`: `NaN` absorbs. -/
def JSNum.add : JSNum → JSNum → JSNum
  | .fin a, .fin b => .fin (a + b)
  | _, _ => .nan

/-- A JSON primitive as seen after property access; `undef` is an absent
property. -/
inductive Prim where
  | undef
  | null
  | bool (b : Bool)
  | num (n : Int)
  | str (s : String)
  deriving DecidableEq, Repr

/-- JavaScript truthiness (`!x` is its negation). -/
def truthy : Prim → Bool
  | .undef => false
  | .null => false
  | .bool b => b
  | .num n => n != 0
  | .str s => s != ""

/-- The coercion `Number(x)`. -/
def toNumber (strNum : String → JSNum) : Prim → JSNum
  | .undef => .nan
  | .null => .fin 0
  | .bool true => .fin 1
  | .bool false => .fin 0
  | .num n => .fin n
  | .str s => strNum s

/-- The expression `x || 0`. -/
def orZero (x : Prim) : Prim :=
  if truthy x then x else .num 0

/-- A sample StringToNumber, exact on the empty string and on runs of decimal
digits and `NaN` on every other string; used where a concrete runtime is
needed. -/
def digitsToNumber (s : String) : JSNum :=
  if s.data.all Char.isDigit then
    .fin (s.data.foldl (fun acc c => 10 * acc + (c.toNat - 48)) 0 : Nat)
  else .nan

/-! ## Requests -/

/-- The four properties read from one element `d` of `detalles`. -/
structure Detalle where
  producto_id : Prim
  cantidad : Prim
  precio_unitario : Prim
  precio_total : Prim
  deriving DecidableEq, Repr

/-- One element of the array `detalles`: `null`, on which property access
throws a TypeError, or any other value, seen through its four properties. -/
inductive Elem where
  | null
  | obj (d : Detalle)
  deriving DecidableEq, Repr

/-- The body of `POST /ordenes` and `PUT /ordenes/:id`.  `detalles` is `none`
when `Array.isArray(detalles)` is false. -/
structure OrdenBody where
  numero_orden : Prim
  fecha : Prim
  detalles : Option (List Elem)
  deriving DecidableEq, Repr

/-! ## Tables -/

/-- A row of `ordenes`. -/
structure OrdenRow where
  id : Nat
  numero_orden : Prim
  fecha : Prim
  cantidad_productos : Nat
  precio_final : JSNum
  estado : Prim
  deriving DecidableEq, Repr

/-- A row of `detalle_orden`. -/
structure DetalleRow where
  id : Nat
  orden_id : Nat
  producto_id : Prim
  cantidad : Prim
  precio_unitario : Prim
  precio_total : Prim
  deriving DecidableEq, Repr

/-- The database: both tables and their next generated ids. -/
structure Store where
  ordenes : List OrdenRow
  detalle_orden : List DetalleRow
  next_orden : Nat
  next_detalle : Nat
  deriving DecidableEq, Repr

/-- A bind parameter as the table receives it: `undefined` becomes `NULL`. -/
def sqlParam : Prim → Prim
  | .undef => .null
  | x => x

/-- Modelled from the spec: the column default of `ordenes.estado`, which the
`insert` of `POST /ordenes` relies on; the table definition is not in the
source and the spec names the initial state. -/
def estadoInicial : Prim := .str "Pendiente"

/-- The query `select * from ordenes where id = ?`. -/
def selectOrden (s : Store) (id : Nat) : List OrdenRow :=
  s.ordenes.filter (fun o => o.id == id)

/-- The query `select * from detalle_orden where orden_id = ? order by id asc`. -/
def selectDetalles (s : Store) (id : Nat) : List DetalleRow :=
  (s.detalle_orden.filter (fun d => d.orden_id == id)).insertionSort
    (fun a b => a.id ≤ b.id)

/-- The query `select * from ordenes order by id desc`. -/
def selectOrdenes (s : Store) : List OrdenRow :=
  s.ordenes.insertionSort (fun a b => b.id ≤ a.id)

/-- The query `insert into ordenes (numero_orden, fecha, cantidad_productos,
precio_final) values (?,?,?,?)`, with its `insertId`. -/
def insertOrden (s : Store) (numero_orden fecha : Prim) (cantidad_productos : Nat)
    (precio_final : JSNum) : Nat × Store :=
  (s.next_orden,
    { s with
      ordenes := s.ordenes ++
        [{ id := s.next_orden, numero_orden := sqlParam numero_orden,
           fecha := sqlParam fecha, cantidad_productos := cantidad_productos,
           precio_final := precio_final, estado := estadoInicial }],
      next_orden := s.next_orden + 1 })

/-- The query `insert into detalle_orden (orden_id, producto_id, cantidad,
precio_unitario, precio_total) values (?,?,?,?,?)`. -/
def insertDetalle (s : Store) (ordenId : Nat) (d : Detalle) : Store :=
  { s with
    detalle_orden := s.detalle_orden ++
      [{ id := s.next_detalle, orden_id := ordenId,
         producto_id := sqlParam d.producto_id, cantidad := sqlParam d.cantidad,
         precio_unitario := sqlParam d.precio_unitario,
         precio_total := sqlParam d.precio_total }],
    next_detalle := s.next_detalle + 1 }

/-- The query `update ordenes set numero_orden=?, fecha=?,
cantidad_productos=?, precio_final=? where id=?`. -/
def updateOrden (s : Store) (id : Nat) (numero_orden fecha : Prim)
    (cantidad_productos : Nat) (precio_final : JSNum) : Store :=
  { s with
    ordenes := s.ordenes.map (fun o =>
      if o.id == id then
        { o with numero_orden := sqlParam numero_orden, fecha := sqlParam fecha,
                 cantidad_productos := cantidad_productos,
                 precio_final := precio_final }
      else o) }

/-- The query `delete from detalle_orden where orden_id=?`. -/
def deleteDetalles (s : Store) (id : Nat) : Store :=
  { s with detalle_orden := s.detalle_orden.filter (fun d => !(d.orden_id == id)) }

/-- Modelled from the spec: the effect of `delete from ordenes where id=?` on
`detalle_orden`.  The handler issues this one statement; the foreign key of
`detalle_orden.orden_id` belongs to the table definition, which is not in the
source, and the spec says that deleting an order cascades to its line items. -/
def deleteOrdenRow (s : Store) (id : Nat) : Store :=
  { s with
    ordenes := s.ordenes.filter (fun o => !(o.id == id)),
    detalle_orden := s.detalle_orden.filter (fun d => !(d.orden_id == id)) }

/-- The query `UPDATE ordenes SET estado=? WHERE id=?`. -/
def updateEstado (s : Store) (id : Nat) (estado : Prim) : Store :=
  { s with
    ordenes := s.ordenes.map (fun o =>
      if o.id == id then { o with estado := sqlParam estado } else o) }

/-! ## Storage calls that can reject -/

/-- One awaited call on the connection under budget `k`: `none` when the call
rejects, otherwise the budget left. -/
def await : Option Nat → Option (Option Nat)
  | none => some none
  | some 0 => none
  | some (n + 1) => some (some n)

/-! ## Responses -/

/-- What a handler sends: one of the JSON bodies or `res.status(code)` with
its `error` text. -/
inductive Response where
  | rows (ordenes : List OrdenRow)
  | orden (orden : OrdenRow) (detalles : List DetalleRow)
  | id (ordenId : Nat)
  | ok
  | status (code : Nat) (error : String)
  deriving DecidableEq, Repr

/-! ## Handlers -/

/-- The aggregate `detalles.reduce((sum, d) => sum + Number(d.precio_total || 0), 0)`;
`none` when an element is `null` and the property access throws. -/
def precio_final (strNum : String → JSNum) (detalles : List Elem) : Option JSNum :=
  detalles.foldlM
    (fun sum d =>
      match d with
      | .null => none
      | .obj d => some (sum.add (toNumber strNum (orZero d.precio_total))))
    (JSNum.fin 0)

/-- The loop `for (const d of detalles) await conn.query("insert into
detalle_orden ...")`: the budget left, or `none` at the first rejection, and
the store as the loop leaves it. -/
def insertDetalles (k : Option Nat) (s : Store) (ordenId : Nat) :
    List Elem → Option (Option Nat) × Store
  | [] => (some k, s)
  | .null :: _ => (none, s)
  | .obj d :: rest =>
    match await k with
    | none => (none, s)
    | some k' => insertDetalles k' (insertDetalle s ordenId d) ordenId rest

/-- The handler of `GET /ordenes`. -/
def getOrdenes (k : Option Nat) (s : Store) : Response × Store :=
  let e := (Response.status 500 "Error al obtener ordenes", s)
  match await k with
  | none => e
  | some k1 =>
  match await k1 with
  | none => e
  | some k2 =>
  match await k2 with
  | none => e
  | some _ => (.rows (selectOrdenes s), s)

/-- The handler of `GET /ordenes/:id`. -/
def getOrden (k : Option Nat) (s : Store) (id : Nat) : Response × Store :=
  let e := (Response.status 500 "Error al obtener orden", s)
  match await k with
  | none => e
  | some k1 =>
  match await k1 with
  | none => e
  | some k2 =>
  match selectOrden s id with
  | [] =>
    match await k2 with
    | none => e
    | some _ => (.status 404 "Orden no encontrada", s)
  | orden :: _ =>
    match await k2 with
    | none => e
    | some k3 =>
    match await k3 with
    | none => e
    | some _ => (.orden orden (selectDetalles s id), s)

/-- The handler of `POST /ordenes`. -/
def postOrdenes (strNum : String → JSNum) (k : Option Nat) (s : Store)
    (body : OrdenBody) : Response × Store :=
  if !truthy body.numero_orden then (.status 400 "numero_orden es requerido", s)
  else if !truthy body.fecha then (.status 400 "fecha es requerida", s)
  else
    match body.detalles with
    | none => (.status 400 "detalles es requerido (min 1 producto)", s)
    | some [] => (.status 400 "detalles es requerido (min 1 producto)", s)
    | some detalles =>
      let cantidad_productos := detalles.length
      match precio_final strNum detalles with
      | none => (.status 500 "Error al crear orden", s)
      | some precio =>
      match await k with
      | none => (.status 500 "Error al crear orden", s)
      | some k1 =>
      match await k1 with
      | none => (.status 500 "Error al crear orden", s)
      | some k2 =>
        let r := insertOrden s body.numero_orden body.fecha cantidad_productos precio
        match insertDetalles k2 r.2 r.1 detalles with
        | (none, s') => (.status 500 "Error al crear orden", s')
        | (some k3, s') =>
          match await k3 with
          | none => (.status 500 "Error al crear orden", s')
          | some _ => (.id r.1, s')

/-- The handler of `PUT /ordenes/:id`. -/
def putOrden (strNum : String → JSNum) (k : Option Nat) (s : Store) (id : Nat)
    (body : OrdenBody) : Response × Store :=
  if !truthy body.numero_orden then (.status 400 "numero_orden es requerido", s)
  else if !truthy body.fecha then (.status 400 "fecha es requerida", s)
  else
    match body.detalles with
    | none => (.status 400 "detalles es requerido (min 1 producto)", s)
    | some [] => (.status 400 "detalles es requerido (min 1 producto)", s)
    | some detalles =>
      let cantidad_productos := detalles.length
      match precio_final strNum detalles with
      | none => (.status 500 "Error al actualizar orden", s)
      | some precio =>
      match await k with
      | none => (.status 500 "Error al actualizar orden", s)
      | some k1 =>
      match await k1 with
      | none => (.status 500 "Error al actualizar orden", s)
      | some k2 =>
      match selectOrden s id with
      | [] =>
        match await k2 with
        | none => (.status 500 "Error al actualizar orden", s)
        | some _ => (.status 404 "Orden no encontrada", s)
      | ex :: _ =>
        if ex.estado = .str "Completado" then
          match await k2 with
          | none => (.status 500 "Error al actualizar orden", s)
          | some _ => (.status 403 "No se puede modificar una orden Completado", s)
        else
          match await k2 with
          | none => (.status 500 "Error al actualizar orden", s)
          | some k3 =>
            let s1 := updateOrden s id body.numero_orden body.fecha cantidad_productos precio
            match await k3 with
            | none => (.status 500 "Error al actualizar orden", s1)
            | some k4 =>
              let s2 := deleteDetalles s1 id
              match insertDetalles k4 s2 id detalles with
              | (none, s') => (.status 500 "Error al actualizar orden", s')
              | (some k5, s') =>
                match await k5 with
                | none => (.status 500 "Error al actualizar orden", s')
                | some _ => (.ok, s')

/-- The handler of `DELETE /ordenes/:id`. -/
def deleteOrden (k : Option Nat) (s : Store) (id : Nat) : Response × Store :=
  let e := Response.status 500 "Error al eliminar orden"
  match await k with
  | none => (e, s)
  | some k1 =>
  match await k1 with
  | none => (e, s)
  | some k2 =>
  match selectOrden s id with
  | [] =>
    match await k2 with
    | none => (e, s)
    | some _ => (.status 404 "Orden no encontrada", s)
  | row :: _ =>
    if row.estado = .str "Completado" then
      match await k2 with
      | none => (e, s)
      | some _ => (.status 403 "No se puede eliminar una orden Completado", s)
    else
      match await k2 with
      | none => (e, s)
      | some k3 =>
        let s1 := deleteOrdenRow s id
        match await k3 with
        | none => (e, s1)
        | some _ => (.ok, s1)

/-- The list `permitidos` of `PATCH /ordenes/:id/estado`. -/
def permitidos : List Prim :=
  [.str "Pendiente", .str "En Progreso", .str "Completado"]

/-- The handler of `PATCH /ordenes/:id/estado`. -/
def patchEstado (k : Option Nat) (s : Store) (id : Nat) (estado : Prim) :
    Response × Store :=
  let e := Response.status 500 "Error al cambiar estado"
  if !permitidos.contains estado then (.status 400 "Estado inválido", s)
  else
    match await k with
    | none => (e, s)
    | some k1 =>
    match await k1 with
    | none => (e, s)
    | some k2 =>
    match selectOrden s id with
    | [] =>
      match await k2 with
      | none => (e, s)
      | some _ => (.status 404 "Orden no encontrada", s)
    | _ :: _ =>
      match await k2 with
      | none => (e, s)
      | some k3 =>
        let s1 := updateEstado s id estado
        match await k3 with
        | none => (e, s1)
        | some _ => (.ok, s1)

/-- The empty database with ids starting at 1. -/
def Store.empty : Store :=
  { ordenes := [], detalle_orden := [], next_orden := 1, next_detalle := 1 }

/-! ## Definitions used to state the properties -/

/-- The store after the inserts of `ds` for order `ordenId`, in order, none
rejecting. -/
def insertMany (s : Store) (ordenId : Nat) (ds : List Detalle) : Store :=
  ds.foldl (fun s d => insertDetalle s ordenId d) s

/-- The rows that the inserts of `ds` for order `ordenId` create when the next
generated id is `n`. -/
def rowsFrom (n ordenId : Nat) : List Detalle → List DetalleRow
  | [] => []
  | d :: ds =>
    { id := n, orden_id := ordenId, producto_id := sqlParam d.producto_id,
      cantidad := sqlParam d.cantidad, precio_unitario := sqlParam d.precio_unitario,
      precio_total := sqlParam d.precio_total } :: rowsFrom (n + 1) ordenId ds

/-- The aggregate of `precio_final` over elements that are all objects. -/
def sumaDetalles (strNum : String → JSNum) (ds : List Detalle) : JSNum :=
  ds.foldl (fun sum d => sum.add (toNumber strNum (orZero d.precio_total))) (.fin 0)

/-- A request body that passes the checks of `POST /ordenes` and
`PUT /ordenes/:id` and whose aggregate does not throw: `numero_orden` and
`fecha` truthy, `detalles` the non-empty array of objects `ds`. -/
def cuerpo (numero_orden fecha : Prim) (ds : List Detalle) : OrdenBody :=
  { numero_orden := numero_orden, fecha := fecha, detalles := some (ds.map Elem.obj) }

/-- Generated ids are fresh: every stored id is below the next one to be
generated, and every line item refers to an order id already generated. -/
def Store.WF (s : Store) : Prop :=
  (∀ o ∈ s.ordenes, o.id < s.next_orden) ∧
  (∀ d ∈ s.detalle_orden, d.orden_id < s.next_orden ∧ d.id < s.next_detalle)

instance (s : Store) : Decidable s.WF := by
  unfold Store.WF
  infer_instance

/-- The three checks that `POST /ordenes` and `PUT /ordenes/:id` make on the
body before anything else: `!numero_orden`, `!fecha`, and
`!Array.isArray(detalles) || detalles.length === 0`. -/
def rechazado (body : OrdenBody) : Bool :=
  !truthy body.numero_orden || !truthy body.fecha ||
    (match body.detalles with
     | none => true
     | some [] => true
     | some _ => false)

/-- The request of the spec's example: order `ORD-1` with two line items of
totals 20 and 5. -/
def ejemploBody : OrdenBody :=
  cuerpo (.str "ORD-1") (.str "2024-01-01")
    [⟨.num 5, .num 2, .num 10, .num 20⟩, ⟨.num 7, .num 1, .num 5, .num 5⟩]

/-- A second request for the same order: one line item of total 7. -/
def ejemploBody2 : OrdenBody :=
  cuerpo (.str "ORD-1b") (.str "2024-02-02") [⟨.num 9, .num 1, .num 7, .num 7⟩]

/-- The database after `ejemploBody` was posted to the empty database. -/
def ejemploStore : Store :=
  (postOrdenes digitsToNumber none Store.empty ejemploBody).2

/-- The database `ejemploStore` after order 1 was set to `Completado`. -/
def storeCompletado : Store :=
  (patchEstado none ejemploStore 1 (.str "Completado")).2

/-- The database `ejemploStore` after the line items of order 1 were replaced
by those of `ejemploBody2`. -/
def ejemploStore2 : Store :=
  (putOrden digitsToNumber none ejemploStore 1 ejemploBody2).2

/-! ## Lemmas -/

@[simp]
theorem await_none : await none = some none := rfl

@[simp]
theorem await_zero : await (some 0) = none := rfl

@[simp]
theorem await_succ (n : Nat) : await (some (n + 1)) = some (some n) := rfl

theorem insertMany_eq (s : Store) (ordenId : Nat) (ds : List Detalle) :
    insertMany s ordenId ds =
      { s with
        detalle_orden := s.detalle_orden ++ rowsFrom s.next_detalle ordenId ds,
        next_detalle := s.next_detalle + ds.length } := by
  induction ds generalizing s with
  | nil => simp [insertMany, rowsFrom]
  | cons d ds ih =>
    have h := ih (insertDetalle s ordenId d)
    simp only [insertMany, List.foldl_cons] at h ⊢
    rw [h]
    simp [insertDetalle, rowsFrom, Nat.add_comm, Nat.add_left_comm, Nat.add_assoc]

theorem insertDetalles_map_obj (k : Option Nat) (s : Store) (ordenId : Nat)
    (ds : List Detalle) :
    insertDetalles k s ordenId (ds.map Elem.obj) =
      match k with
      | none => (some none, insertMany s ordenId ds)
      | some n =>
        if ds.length ≤ n then (some (some (n - ds.length)), insertMany s ordenId ds)
        else (none, insertMany s ordenId (ds.take n)) := by
  induction ds generalizing k s with
  | nil => cases k <;> simp [insertDetalles, insertMany]
  | cons d ds ih =>
    cases k with
    | none =>
      simp only [List.map_cons, insertDetalles, await_none]
      rw [ih]
      simp [insertMany]
    | some n =>
      cases n with
      | zero => simp [insertDetalles, insertMany]
      | succ n =>
        simp only [List.map_cons, insertDetalles, await_succ]
        rw [ih]
        by_cases h : ds.length ≤ n
        · simp [h, insertMany]
        · simp [h, insertMany]

theorem foldlM_precio (strNum : String → JSNum) (es : List Elem) (acc p : JSNum)
    (h : es.foldlM
      (fun sum d =>
        match d with
        | .null => none
        | .obj d => some (sum.add (toNumber strNum (orZero d.precio_total)))) acc = some p) :
    ∃ ds : List Detalle, es = ds.map Elem.obj ∧
      p = ds.foldl (fun sum d => sum.add (toNumber strNum (orZero d.precio_total))) acc := by
  induction es generalizing acc with
  | nil =>
    refine ⟨[], rfl, ?_⟩
    simpa using h.symm
  | cons e es ih =>
    cases e with
    | null => simp [List.foldlM] at h
    | obj d =>
      simp only [List.foldlM_cons, Option.bind_eq_bind, Option.some_bind] at h
      obtain ⟨ds, h1, h2⟩ := ih _ h
      exact ⟨d :: ds, by simp [h1], by simpa using h2⟩

theorem precio_final_some (strNum : String → JSNum) (es : List Elem) (p : JSNum)
    (h : precio_final strNum es = some p) :
    ∃ ds : List Detalle, es = ds.map Elem.obj ∧ p = sumaDetalles strNum ds :=
  foldlM_precio strNum es _ p h

theorem precio_final_map_obj (strNum : String → JSNum) (ds : List Detalle) :
    precio_final strNum (ds.map Elem.obj) = some (sumaDetalles strNum ds) := by
  unfold precio_final sumaDetalles
  generalize JSNum.fin 0 = acc
  induction ds generalizing acc with
  | nil => rfl
  | cons d ds ih => simp [List.foldlM_cons, ih]

theorem insertDetalles_some (k k' : Option Nat) (s s' : Store) (ordenId : Nat)
    (ds : List Detalle)
    (h : insertDetalles k s ordenId (ds.map Elem.obj) = (some k', s')) :
    s' = insertMany s ordenId ds := by
  rw [insertDetalles_map_obj] at h
  cases k with
  | none => simp at h; exact h.2.symm
  | some n =>
    by_cases hn : ds.length ≤ n
    · simp [hn] at h; exact h.2.symm
    · simp [hn] at h

/-- What a successful `PUT /ordenes/:id` did. -/
theorem putOrden_ok (strNum : String → JSNum) (k : Option Nat) (s s' : Store)
    (id : Nat) (body : OrdenBody)
    (h : putOrden strNum k s id body = (.ok, s')) :
    ∃ (ds : List Detalle) (ex : OrdenRow) (rest : List OrdenRow),
      ds ≠ [] ∧ body.detalles = some (ds.map Elem.obj) ∧
      truthy body.numero_orden = true ∧ truthy body.fecha = true ∧
      selectOrden s id = ex :: rest ∧ ex.estado ≠ .str "Completado" ∧
      s' = insertMany
        (deleteDetalles
          (updateOrden s id body.numero_orden body.fecha ds.length (sumaDetalles strNum ds)) id)
        id ds := by
  unfold putOrden at h
  split at h
  · simp at h
  split at h
  · simp at h
  rename_i hn hf
  split at h
  · simp at h
  · simp at h
  rename_i es hne hd
  split at h
  · simp at h
  rename_i p hp
  obtain ⟨ds, rfl, rfl⟩ := precio_final_some strNum _ _ hp
  split at h
  · simp at h
  split at h
  · simp at h
  split at h
  · split at h <;> simp at h
  rename_i ex rest hsel
  split at h
  · split at h <;> simp at h
  rename_i hest
  split at h
  · simp at h
  split at h
  · simp at h
  dsimp only at h
  split at h
  · simp at h
  rename_i k5 s'' hi
  split at h
  · simp at h
  simp only [Prod.mk.injEq, true_and] at h
  subst h
  have := insertDetalles_some _ _ _ _ _ _ hi
  refine ⟨ds, ex, rest, ?_, hd, by simpa using hn, by simpa using hf, hsel, hest, ?_⟩
  · intro hnil
    subst hnil
    simp at hne
  · simpa using this

theorem getOrden_none (s : Store) (id : Nat) :
    getOrden none s id =
      match selectOrden s id with
      | [] => (.status 404 "Orden no encontrada", s)
      | orden :: _ => (.orden orden (selectDetalles s id), s) := by
  simp only [getOrden, await_none]

theorem sqlParam_of_truthy (x : Prim) (h : truthy x = true) : sqlParam x = x := by
  cases x <;> simp_all [sqlParam, truthy]

theorem rowsFrom_orden_id (n ordenId : Nat) (ds : List Detalle) :
    ∀ r ∈ rowsFrom n ordenId ds, r.orden_id = ordenId ∧ n ≤ r.id := by
  induction ds generalizing n with
  | nil => simp [rowsFrom]
  | cons d ds ih =>
    intro r hr
    simp only [rowsFrom, List.mem_cons] at hr
    rcases hr with rfl | hr
    · simp
    · have := ih (n + 1) r hr
      exact ⟨this.1, by omega⟩

theorem rowsFrom_sorted (n ordenId : Nat) (ds : List Detalle) :
    (rowsFrom n ordenId ds).Sorted (fun a b => a.id ≤ b.id) := by
  induction ds generalizing n with
  | nil => simp [rowsFrom]
  | cons d ds ih =>
    simp only [rowsFrom, List.sorted_cons]
    refine ⟨?_, ih (n + 1)⟩
    intro r hr
    have := (rowsFrom_orden_id (n + 1) ordenId ds r hr).2
    simp
    omega

theorem rowsFrom_filter_same (n ordenId : Nat) (ds : List Detalle) :
    (rowsFrom n ordenId ds).filter (fun d => d.orden_id == ordenId) = rowsFrom n ordenId ds := by
  rw [List.filter_eq_self]
  intro r hr
  simp [(rowsFrom_orden_id n ordenId ds r hr).1]

theorem rowsFrom_filter_other (n ordenId j : Nat) (ds : List Detalle) (h : j ≠ ordenId) :
    (rowsFrom n ordenId ds).filter (fun d => d.orden_id == j) = [] := by
  rw [List.filter_eq_nil_iff]
  intro r hr
  simp [(rowsFrom_orden_id n ordenId ds r hr).1, Ne.symm h]

theorem filter_filter_not (l : List DetalleRow) (id : Nat) :
    (l.filter (fun d => !(d.orden_id == id))).filter (fun d => d.orden_id == id) = [] := by
  rw [List.filter_eq_nil_iff]
  intro d hd
  have := (List.mem_filter.1 hd).2
  simpa using this

theorem selectOrden_updateOrden (s : Store) (id : Nat) (numero_orden fecha : Prim)
    (n : Nat) (p : JSNum) :
    selectOrden (updateOrden s id numero_orden fecha n p) id =
      (selectOrden s id).map (fun o =>
        { o with numero_orden := sqlParam numero_orden, fecha := sqlParam fecha,
                 cantidad_productos := n, precio_final := p }) := by
  simp only [selectOrden, updateOrden]
  induction s.ordenes with
  | nil => rfl
  | cons o os ih =>
    by_cases ho : o.id = id
    · simp_all [List.filter_cons]
    · simp_all [List.filter_cons]

/-- Reading back after the writes of a `PUT /ordenes/:id` that ran to its end. -/
theorem get_after_put (s : Store) (id : Nat)
    (numero_orden fecha : Prim) (n : Nat) (p : JSNum) (ds : List Detalle)
    (ex : OrdenRow) (rest : List OrdenRow) (hsel : selectOrden s id = ex :: rest) :
    getOrden none
        (insertMany (deleteDetalles (updateOrden s id numero_orden fecha n p) id) id ds) id =
      (.orden
        { ex with numero_orden := sqlParam numero_orden, fecha := sqlParam fecha,
                  cantidad_productos := n, precio_final := p }
        (rowsFrom s.next_detalle id ds),
       insertMany (deleteDetalles (updateOrden s id numero_orden fecha n p) id) id ds) := by
  rw [getOrden_none]
  have h1 : selectOrden
      (insertMany (deleteDetalles (updateOrden s id numero_orden fecha n p) id) id ds) id =
      (selectOrden s id).map (fun o =>
        { o with numero_orden := sqlParam numero_orden, fecha := sqlParam fecha,
                 cantidad_productos := n, precio_final := p }) := by
    rw [← selectOrden_updateOrden]
    simp [selectOrden, insertMany_eq, deleteDetalles]
  have h2 : selectDetalles
      (insertMany (deleteDetalles (updateOrden s id numero_orden fecha n p) id) id ds) id =
      rowsFrom s.next_detalle id ds := by
    simp only [selectDetalles, insertMany_eq, deleteDetalles, updateOrden, List.filter_append,
      filter_filter_not, rowsFrom_filter_same, List.nil_append]
    exact List.Sorted.insertionSort_eq (rowsFrom_sorted _ _ _)
  rw [h1, h2, hsel]
  rfl

theorem filter_other_filter_not (l : List DetalleRow) (id j : Nat) (h : j ≠ id) :
    (l.filter (fun d => !(d.orden_id == id))).filter (fun d => d.orden_id == j) =
      l.filter (fun d => d.orden_id == j) := by
  rw [List.filter_filter]
  apply List.filter_congr
  intro d _
  by_cases hd : d.orden_id = j
  · simp [hd, h]
  · simp [hd]

theorem selectOrden_updateOrden_other (s : Store) (id j : Nat) (numero_orden fecha : Prim)
    (n : Nat) (p : JSNum) (h : j ≠ id) :
    selectOrden (updateOrden s id numero_orden fecha n p) j = selectOrden s j := by
  simp only [selectOrden, updateOrden]
  induction s.ordenes with
  | nil => rfl
  | cons o os ih =>
    by_cases ho : o.id = id
    · have : ¬ id = j := fun e => h e.symm
      simp_all [List.filter_cons]
    · simp_all [List.filter_cons]

/-- The line items and headers of every other order after the writes of a
`PUT /ordenes/:id` that ran to its end. -/
theorem others_after_put (s : Store) (id j : Nat) (numero_orden fecha : Prim) (n : Nat)
    (p : JSNum) (ds : List Detalle) (h : j ≠ id) :
    selectDetalles
        (insertMany (deleteDetalles (updateOrden s id numero_orden fecha n p) id) id ds) j =
      selectDetalles s j ∧
    selectOrden
        (insertMany (deleteDetalles (updateOrden s id numero_orden fecha n p) id) id ds) j =
      selectOrden s j := by
  constructor
  · simp only [selectDetalles, insertMany_eq, deleteDetalles, updateOrden, List.filter_append,
      rowsFrom_filter_other _ _ _ _ h, List.append_nil, filter_other_filter_not _ _ _ h]
  · rw [← selectOrden_updateOrden_other s id j numero_orden fecha n p h]
    simp [selectOrden, insertMany_eq, deleteDetalles]

theorem rowsFrom_fields (n ordenId : Nat) (ds : List Detalle) :
    (rowsFrom n ordenId ds).map
        (fun r => (r.orden_id, r.producto_id, r.cantidad, r.precio_unitario, r.precio_total)) =
      ds.map (fun d => (ordenId, sqlParam d.producto_id, sqlParam d.cantidad,
        sqlParam d.precio_unitario, sqlParam d.precio_total)) := by
  induction ds generalizing n with
  | nil => rfl
  | cons d ds ih => simp [rowsFrom, ih]

theorem selectOrden_id (s : Store) (id : Nat) (o : OrdenRow) (rest : List OrdenRow)
    (h : selectOrden s id = o :: rest) : o.id = id := by
  have : o ∈ selectOrden s id := by simp [h]
  simpa [selectOrden] using (List.mem_filter.1 this).2

theorem sqlParam_of_permitido (estado : Prim) (h : estado ∈ permitidos) :
    sqlParam estado = estado := by
  simp only [permitidos, List.mem_cons, List.mem_singleton, List.not_mem_nil, or_false] at h
  rcases h with rfl | rfl | rfl <;> rfl

theorem selectOrden_updateEstado (s : Store) (id : Nat) (estado : Prim) :
    selectOrden (updateEstado s id estado) id =
      (selectOrden s id).map (fun o => { o with estado := sqlParam estado }) := by
  simp only [selectOrden, updateEstado]
  induction s.ordenes with
  | nil => rfl
  | cons o os ih =>
    by_cases ho : o.id = id
    · simp_all [List.filter_cons]
    · simp_all [List.filter_cons]

theorem selectOrden_updateEstado_other (s : Store) (id j : Nat) (estado : Prim) (h : j ≠ id) :
    selectOrden (updateEstado s id estado) j = selectOrden s j := by
  simp only [selectOrden, updateEstado]
  induction s.ordenes with
  | nil => rfl
  | cons o os ih =>
    by_cases ho : o.id = id
    · have : ¬ id = j := fun e => h e.symm
      simp_all [List.filter_cons]
    · simp_all [List.filter_cons]

/-- The run of `PATCH /ordenes/:id/estado` with an allowed state on an existing
order when no storage call rejects. -/
theorem patchEstado_run (s : Store) (id : Nat) (estado : Prim) (ex : OrdenRow)
    (rest : List OrdenRow) (hp : estado ∈ permitidos) (hsel : selectOrden s id = ex :: rest) :
    patchEstado none s id estado = (.ok, updateEstado s id estado) := by
  simp [patchEstado, hp, hsel]

theorem get_after_patch (s : Store) (id : Nat) (estado : Prim) (orden : OrdenRow)
    (detalles : List DetalleRow) (hp : estado ∈ permitidos)
    (hget : getOrden none s id = (.orden orden detalles, s)) :
    ∃ rest, selectOrden s id = orden :: rest ∧
      getOrden none (updateEstado s id estado) id =
        (.orden { orden with estado := estado } detalles, updateEstado s id estado) := by
  rw [getOrden_none] at hget
  cases hsel : selectOrden s id with
  | nil => simp [hsel] at hget
  | cons o rest =>
    simp only [hsel, Prod.mk.injEq, Response.orden.injEq, and_true] at hget
    obtain ⟨rfl, hd⟩ := hget
    refine ⟨rest, rfl, ?_⟩
    rw [getOrden_none, selectOrden_updateEstado, hsel, sqlParam_of_permitido _ hp]
    have : selectDetalles (updateEstado s id estado) id = detalles := by
      rw [← hd]
      rfl
    simp [this]

/-- What a successful `DELETE /ordenes/:id` did. -/
theorem deleteOrden_ok (k : Option Nat) (s s' : Store) (id : Nat)
    (h : deleteOrden k s id = (.ok, s')) : s' = deleteOrdenRow s id := by
  unfold deleteOrden at h
  dsimp only at h
  split at h
  · simp at h
  split at h
  · simp at h
  split at h
  · split at h <;> simp at h
  split at h
  · split at h <;> simp at h
  split at h
  · simp at h
  split at h
  · simp at h
  · simp at h
    exact h.symm

theorem deleteOrden_run (s : Store) (id : Nat) (row : OrdenRow) (rest : List OrdenRow)
    (hsel : selectOrden s id = row :: rest) (hest : row.estado ≠ .str "Completado") :
    deleteOrden none s id = (.ok, deleteOrdenRow s id) := by
  simp [deleteOrden, hsel, hest]

theorem filter_not_filter (l : List OrdenRow) (id j : Nat) (h : j ≠ id) :
    (l.filter (fun o => !(o.id == id))).filter (fun o => o.id == j) =
      l.filter (fun o => o.id == j) := by
  rw [List.filter_filter]
  apply List.filter_congr
  intro o _
  by_cases ho : o.id = j
  · simp [ho, h]
  · simp [ho]

theorem putOrden_400_iff (strNum : String → JSNum) (k : Option Nat) (s : Store) (id : Nat)
    (body : OrdenBody) :
    (∃ msg, (putOrden strNum k s id body).1 = .status 400 msg) ↔ rechazado body = true := by
  unfold putOrden rechazado
  by_cases hn : truthy body.numero_orden = true
  · by_cases hf : truthy body.fecha = true
    · simp only [hn, hf, Bool.not_true, Bool.false_eq_true, if_false, Bool.false_or]
      split
      · simp
      · simp
      · repeat' first | split | dsimp only
        all_goals simp
    · simp [hn, hf]
  · simp [hn]

theorem Store.empty_WF : Store.empty.WF := by decide

theorem insertDetalle_WF (s : Store) (ordenId : Nat) (d : Detalle) (h : s.WF)
    (hid : ordenId < s.next_orden) : (insertDetalle s ordenId d).WF := by
  refine ⟨h.1, ?_⟩
  intro r hr
  simp only [insertDetalle, List.mem_append, List.mem_singleton] at hr ⊢
  rcases hr with hr | rfl
  · have := h.2 r hr
    exact ⟨this.1, by omega⟩
  · exact ⟨hid, by simp⟩

theorem insertDetalles_WF (k : Option Nat) (s : Store) (ordenId : Nat) (es : List Elem)
    (h : s.WF) (hid : ordenId < s.next_orden) : (insertDetalles k s ordenId es).2.WF := by
  induction es generalizing k s with
  | nil => exact h
  | cons e es ih =>
    cases e with
    | null => exact h
    | obj d =>
      simp only [insertDetalles]
      split
      · exact h
      · exact ih _ _ (insertDetalle_WF s ordenId d h hid) hid

theorem insertOrden_WF (s : Store) (numero_orden fecha : Prim) (n : Nat) (p : JSNum)
    (h : s.WF) :
    (insertOrden s numero_orden fecha n p).2.WF ∧
      (insertOrden s numero_orden fecha n p).1 <
        (insertOrden s numero_orden fecha n p).2.next_orden := by
  refine ⟨⟨?_, ?_⟩, by simp [insertOrden]⟩
  · intro o ho
    simp only [insertOrden, List.mem_append, List.mem_singleton] at ho ⊢
    rcases ho with ho | rfl
    · have := h.1 o ho
      omega
    · simp
  · intro d hd
    have := h.2 d hd
    simp only [insertOrden]
    exact ⟨by omega, this.2⟩

theorem updateOrden_WF (s : Store) (id : Nat) (numero_orden fecha : Prim) (n : Nat)
    (p : JSNum) (h : s.WF) : (updateOrden s id numero_orden fecha n p).WF := by
  refine ⟨?_, h.2⟩
  intro o ho
  simp only [updateOrden, List.mem_map] at ho ⊢
  obtain ⟨o', ho', rfl⟩ := ho
  have := h.1 o' ho'
  split <;> simpa using this

theorem updateEstado_WF (s : Store) (id : Nat) (estado : Prim) (h : s.WF) :
    (updateEstado s id estado).WF := by
  refine ⟨?_, h.2⟩
  intro o ho
  simp only [updateEstado, List.mem_map] at ho ⊢
  obtain ⟨o', ho', rfl⟩ := ho
  have := h.1 o' ho'
  split <;> simpa using this

theorem deleteDetalles_WF (s : Store) (id : Nat) (h : s.WF) : (deleteDetalles s id).WF :=
  ⟨h.1, fun d hd => h.2 d (List.mem_filter.1 hd).1⟩

theorem deleteOrdenRow_WF (s : Store) (id : Nat) (h : s.WF) : (deleteOrdenRow s id).WF :=
  ⟨fun o ho => h.1 o (List.mem_filter.1 ho).1, fun d hd => h.2 d (List.mem_filter.1 hd).1⟩

theorem selectOrden_lt (s : Store) (id : Nat) (o : OrdenRow) (rest : List OrdenRow)
    (h : s.WF) (hsel : selectOrden s id = o :: rest) : id < s.next_orden := by
  have hm : o ∈ selectOrden s id := by simp [hsel]
  have := h.1 o (List.mem_filter.1 hm).1
  rw [selectOrden_id s id o rest hsel] at this
  exact this

theorem WF_of_insertDetalles (k : Option Nat) (s s' : Store) (ordenId : Nat) (es : List Elem)
    (r : Option (Option Nat)) (hi : insertDetalles k s ordenId es = (r, s')) (h : s.WF)
    (hid : ordenId < s.next_orden) : s'.WF := by
  have := insertDetalles_WF k s ordenId es h hid
  rw [hi] at this
  exact this

theorem postOrdenes_WF (strNum : String → JSNum) (k : Option Nat) (s : Store)
    (body : OrdenBody) (h : s.WF) : (postOrdenes strNum k s body).2.WF := by
  unfold postOrdenes
  repeat' first | split | dsimp only
  all_goals first
    | exact h
    | exact WF_of_insertDetalles _ _ _ _ _ _ (by assumption)
        (insertOrden_WF s _ _ _ _ h).1 (insertOrden_WF s _ _ _ _ h).2

theorem putOrden_WF (strNum : String → JSNum) (k : Option Nat) (s : Store) (id : Nat)
    (body : OrdenBody) (h : s.WF) : (putOrden strNum k s id body).2.WF := by
  unfold putOrden
  repeat' first | split | dsimp only
  all_goals first
    | exact h
    | exact updateOrden_WF _ _ _ _ _ _ h
    | exact WF_of_insertDetalles _ _ _ _ _ _ (by assumption)
        (deleteDetalles_WF _ _ (updateOrden_WF s _ _ _ _ _ h))
        (selectOrden_lt s id _ _ h (by assumption))

theorem deleteOrden_WF (k : Option Nat) (s : Store) (id : Nat) (h : s.WF) :
    (deleteOrden k s id).2.WF := by
  unfold deleteOrden
  repeat' first | split | dsimp only
  all_goals first
    | exact h
    | exact deleteOrdenRow_WF _ _ h

theorem patchEstado_WF (k : Option Nat) (s : Store) (id : Nat) (estado : Prim) (h : s.WF) :
    (patchEstado k s id estado).2.WF := by
  unfold patchEstado
  repeat' first | split | dsimp only
  all_goals first
    | exact h
    | exact updateEstado_WF _ _ _ h

theorem putOrden_locked (strNum : String → JSNum) (k : Option Nat) (s : Store) (id : Nat)
    (body : OrdenBody) (row : OrdenRow) (rest : List OrdenRow)
    (hsel : selectOrden s id = row :: rest) (hest : row.estado = .str "Completado") :
    (putOrden strNum k s id body).2 = s ∧ (putOrden strNum k s id body).1 ≠ .ok := by
  unfold putOrden
  simp only [hsel, hest, if_true]
  repeat' first | split | dsimp only
  all_goals simp

theorem deleteOrden_locked (k : Option Nat) (s : Store) (id : Nat)
    (row : OrdenRow) (rest : List OrdenRow)
    (hsel : selectOrden s id = row :: rest) (hest : row.estado = .str "Completado") :
    (deleteOrden k s id).2 = s ∧
      ((deleteOrden k s id).1 = .status 403 "No se puede eliminar una orden Completado" ∨
       (deleteOrden k s id).1 = .status 500 "Error al eliminar orden") := by
  unfold deleteOrden
  simp only [hsel, hest, if_true]
  repeat' first | split | dsimp only
  all_goals simp

/-- C2 (amended): on an order whose state is `Completado`, with no storage
failure `DELETE /ordenes/:id` answers 403, and `PUT /ordenes/:id` answers 403
for every body that passes its checks (truthy `numero_orden` and `fecha`, a
non-empty array of objects); the body checks come first, so a body that fails
them is answered 400.  For every body and every storage failure neither call
succeeds and the store is unchanged. -/
theorem C2_completed_is_locked (strNum : String → JSNum) (s : Store) (id : Nat)
    (row : OrdenRow) (rest : List OrdenRow)
    (hsel : selectOrden s id = row :: rest) (hest : row.estado = .str "Completado") :
    (∀ (k : Option Nat) (body : OrdenBody),
      (putOrden strNum k s id body).2 = s ∧ (putOrden strNum k s id body).1 ≠ .ok) ∧
    (∀ (numero_orden fecha : Prim) (ds : List Detalle),
      truthy numero_orden = true → truthy fecha = true → ds ≠ [] →
      putOrden strNum none s id (cuerpo numero_orden fecha ds) =
        (.status 403 "No se puede modificar una orden Completado", s)) ∧
    (∀ k : Option Nat, (deleteOrden k s id).2 = s ∧ (deleteOrden k s id).1 ≠ .ok) ∧
    deleteOrden none s id = (.status 403 "No se puede eliminar una orden Completado", s) ∧
    (∀ (k : Option Nat) (body : OrdenBody), rechazado body = true →
      ∃ msg, (putOrden strNum k s id body).1 = .status 400 msg) := by
  refine ⟨fun k body => putOrden_locked strNum k s id body row rest hsel hest, ?_, ?_, ?_,
    fun k body hb => (putOrden_400_iff strNum k s id body).2 hb⟩
  · intro numero_orden fecha ds hn hf hds
    obtain ⟨d, ds', rfl⟩ := List.exists_cons_of_ne_nil hds
    simp only [putOrden, cuerpo, hn, hf, hsel, hest, Bool.not_true, Bool.false_eq_true,
      if_false, if_true, List.map_cons, await_none]
    rw [← List.map_cons, precio_final_map_obj]
  · intro k
    have := deleteOrden_locked k s id row rest hsel hest
    refine ⟨this.1, ?_⟩
    rcases this.2 with h | h <;> simp [h]
  · simp [deleteOrden, hsel, hest]

/-- C2 as stated fails: on the `Completado` order 1 a `PUT` with an empty body
is answered 400 by the body check, not 403. -/
theorem C2_counterexample :
    (selectOrden storeCompletado 1).map (fun o => o.estado) = [.str "Completado"] ∧
    putOrden digitsToNumber none storeCompletado 1 ⟨.undef, .undef, none⟩ =
      (.status 400 "numero_orden es requerido", storeCompletado) := by
  decide

/-- C2 (amended) at the `Completado` order 1 of `storeCompletado`. -/
theorem C2_completed_is_locked_witness :
    (selectOrden storeCompletado 1 =
        [⟨1, .str "ORD-1", .str "2024-01-01", 2, .fin 25, .str "Completado"⟩]) ∧
    putOrden digitsToNumber none storeCompletado 1 ejemploBody2 =
      (.status 403 "No se puede modificar una orden Completado", storeCompletado) ∧
    deleteOrden none storeCompletado 1 =
      (.status 403 "No se puede eliminar una orden Completado", storeCompletado) ∧
    (∀ (k : Option Nat) (body : OrdenBody),
      (putOrden digitsToNumber k storeCompletado 1 body).2 = storeCompletado) ∧
    (∀ k : Option Nat, (deleteOrden k storeCompletado 1).2 = storeCompletado) :=
  have h := C2_completed_is_locked digitsToNumber storeCompletado 1
    ⟨1, .str "ORD-1", .str "2024-01-01", 2, .fin 25, .str "Completado"⟩ []
    (by decide) (by decide)
  ⟨by decide,
    h.2.1 (.str "ORD-1b") (.str "2024-02-02") [⟨.num 9, .num 1, .num 7, .num 7⟩]
      (by decide) (by decide) (by decide),
    h.2.2.2.1, fun k body => (h.1 k body).1, fun k => (h.2.2.1 k).1⟩

/-- C3: on an existing order, whatever its state, `PATCH /ordenes/:id/estado`
with any of the three allowed states succeeds; afterwards the order reads back
with that state, its other header fields and its line items as before, and
the line-item table and every other order are untouched.  In particular a
change to `Completado` followed by a change to `Pendiente` succeeds and ends
in `Pendiente`. -/
theorem C3_transition_from_any_state (s : Store) (id : Nat) (estado : Prim)
    (orden : OrdenRow) (detalles : List DetalleRow)
    (hget : getOrden none s id = (.orden orden detalles, s))
    (hp : estado ∈ permitidos) :
    (∃ s', patchEstado none s id estado = (.ok, s') ∧
      getOrden none s' id = (.orden { orden with estado := estado } detalles, s') ∧
      s'.detalle_orden = s.detalle_orden ∧
      ∀ j, j ≠ id → selectOrden s' j = selectOrden s j) ∧
    (∃ s1 s2, patchEstado none s id (.str "Completado") = (.ok, s1) ∧
      patchEstado none s1 id (.str "Pendiente") = (.ok, s2) ∧
      getOrden none s2 id = (.orden { orden with estado := .str "Pendiente" } detalles, s2)) := by
  constructor
  · obtain ⟨rest, hsel, hg⟩ := get_after_patch s id estado orden detalles hp hget
    exact ⟨_, patchEstado_run s id estado orden rest hp hsel, hg, rfl,
      fun j hj => selectOrden_updateEstado_other s id j estado hj⟩
  · have hc : Prim.str "Completado" ∈ permitidos := by simp [permitidos]
    have hpe : Prim.str "Pendiente" ∈ permitidos := by simp [permitidos]
    obtain ⟨rest, hsel, hg⟩ := get_after_patch s id _ orden detalles hc hget
    obtain ⟨rest', hsel', hg'⟩ := get_after_patch _ id _ _ detalles hpe hg
    exact ⟨_, _, patchEstado_run s id _ orden rest hc hsel,
      patchEstado_run _ id _ _ rest' hpe hsel', hg'⟩

/-- C3 at order 1 of `ejemploStore`: the state goes to `En Progreso`, and from
`Completado` back to `Pendiente`. -/
theorem C3_transition_from_any_state_witness :
    getOrden none ejemploStore 1 =
      (.orden ⟨1, .str "ORD-1", .str "2024-01-01", 2, .fin 25, .str "Pendiente"⟩
        [⟨1, 1, .num 5, .num 2, .num 10, .num 20⟩, ⟨2, 1, .num 7, .num 1, .num 5, .num 5⟩],
       ejemploStore) ∧
    Prim.str "En Progreso" ∈ permitidos ∧
    (∃ s', patchEstado none ejemploStore 1 (.str "En Progreso") = (.ok, s') ∧
      getOrden none s' 1 =
        (.orden ⟨1, .str "ORD-1", .str "2024-01-01", 2, .fin 25, .str "En Progreso"⟩
          [⟨1, 1, .num 5, .num 2, .num 10, .num 20⟩, ⟨2, 1, .num 7, .num 1, .num 5, .num 5⟩],
         s') ∧
      s'.detalle_orden = ejemploStore.detalle_orden ∧
      ∀ j, j ≠ 1 → selectOrden s' j = selectOrden ejemploStore j) ∧
    (∃ s1 s2, patchEstado none ejemploStore 1 (.str "Completado") = (.ok, s1) ∧
      patchEstado none s1 1 (.str "Pendiente") = (.ok, s2) ∧
      getOrden none s2 1 =
        (.orden ⟨1, .str "ORD-1", .str "2024-01-01", 2, .fin 25, .str "Pendiente"⟩
          [⟨1, 1, .num 5, .num 2, .num 10, .num 20⟩, ⟨2, 1, .num 7, .num 1, .num 5, .num 5⟩],
         s2)) :=
  ⟨by decide, by decide,
    C3_transition_from_any_state ejemploStore 1 (.str "En Progreso")
      ⟨1, .str "ORD-1", .str "2024-01-01", 2, .fin 25, .str "Pendiente"⟩
      [⟨1, 1, .num 5, .num 2, .num 10, .num 20⟩, ⟨2, 1, .num 7, .num 1, .num 5, .num 5⟩]
      (by decide) (by decide)⟩

/-- C4: for every order id, every state outside the three allowed ones and
every storage behaviour, `PATCH /ordenes/:id/estado` answers 400 and leaves the
store, and so every order's state, unchanged. -/
theorem C4_invalid_estado_rejected (k : Option Nat) (s : Store) (id : Nat) (estado : Prim)
    (h : estado ∉ permitidos) :
    patchEstado k s id estado = (.status 400 "Estado inválido", s) := by
  simp [patchEstado, h]

/-- C4 at the state `Cancelado`, under the budget where the first storage call
would reject. -/
theorem C4_invalid_estado_rejected_witness :
    Prim.str "Cancelado" ∉ permitidos ∧
    patchEstado (some 0) ejemploStore 1 (.str "Cancelado") =
      (.status 400 "Estado inválido", ejemploStore) :=
  ⟨by decide, C4_invalid_estado_rejected (some 0) ejemploStore 1 (.str "Cancelado") (by decide)⟩

/-- C5: when `detalles` is not an array or is empty, `POST /ordenes` and
`PUT /ordenes/:id` answer 400 with the store unchanged, for every budget of
storage calls, also the budget under which the first storage call would
reject: no storage call is reached. -/
theorem C5_empty_detalles_rejected (strNum : String → JSNum) (k : Option Nat) (s : Store)
    (id : Nat) (body : OrdenBody)
    (h : body.detalles = none ∨ body.detalles = some []) :
    (∃ msg, postOrdenes strNum k s body = (.status 400 msg, s)) ∧
    (∃ msg, putOrden strNum k s id body = (.status 400 msg, s)) := by
  constructor
  · unfold postOrdenes
    split
    · exact ⟨_, rfl⟩
    split
    · exact ⟨_, rfl⟩
    rcases h with h | h <;> simp [h]
  · unfold putOrden
    split
    · exact ⟨_, rfl⟩
    split
    · exact ⟨_, rfl⟩
    rcases h with h | h <;> simp [h]

/-- C5 at a body whose `detalles` is the empty array. -/
theorem C5_empty_detalles_rejected_witness :
    (∃ msg, postOrdenes digitsToNumber (some 0) ejemploStore
        ⟨.str "ORD-3", .str "2024-03-03", some []⟩ = (.status 400 msg, ejemploStore)) ∧
    (∃ msg, putOrden digitsToNumber (some 0) ejemploStore 1
        ⟨.str "ORD-3", .str "2024-03-03", some []⟩ = (.status 400 msg, ejemploStore)) :=
  C5_empty_detalles_rejected digitsToNumber (some 0) ejemploStore 1
    ⟨.str "ORD-3", .str "2024-03-03", some []⟩ (Or.inr rfl)

/-- C7: `DELETE /ordenes/:id` on an existing order that is not `Completado`
succeeds when no storage call rejects, and every successful run removes the
header and all line items of the order: `GET /ordenes/:id` then answers 404, no
row of `detalle_orden` refers to the id, and every other order reads back with
the header and line items it had. -/
theorem C7_delete_removes_order (s : Store) (id : Nat) (row : OrdenRow)
    (rest : List OrdenRow) (hsel : selectOrden s id = row :: rest)
    (hest : row.estado ≠ .str "Completado") :
    (deleteOrden none s id).1 = .ok ∧
    ∀ (k : Option Nat) (s' : Store), deleteOrden k s id = (.ok, s') →
      getOrden none s' id = (.status 404 "Orden no encontrada", s') ∧
      (∀ o ∈ s'.ordenes, o.id ≠ id) ∧
      (∀ d ∈ s'.detalle_orden, d.orden_id ≠ id) ∧
      ∀ j, j ≠ id → getOrden none s' j = ((getOrden none s j).1, s') := by
  refine ⟨by rw [deleteOrden_run s id row rest hsel hest], ?_⟩
  intro k s' h
  have hs := deleteOrden_ok k s s' id h
  subst hs
  have h1 : ∀ o ∈ (deleteOrdenRow s id).ordenes, o.id ≠ id := by
    intro o ho
    simpa [deleteOrdenRow] using (List.mem_filter.1 ho).2
  have h2 : ∀ d ∈ (deleteOrdenRow s id).detalle_orden, d.orden_id ≠ id := by
    intro d hd
    simpa [deleteOrdenRow] using (List.mem_filter.1 hd).2
  refine ⟨?_, h1, h2, ?_⟩
  · rw [getOrden_none]
    have : selectOrden (deleteOrdenRow s id) id = [] := by
      simp only [selectOrden]
      rw [List.filter_eq_nil_iff]
      intro o ho
      simpa using h1 o ho
    rw [this]
  · intro j hj
    rw [getOrden_none, getOrden_none]
    have e1 : selectOrden (deleteOrdenRow s id) j = selectOrden s j := by
      simp only [selectOrden, deleteOrdenRow]
      exact filter_not_filter _ _ _ hj
    have e2 : selectDetalles (deleteOrdenRow s id) j = selectDetalles s j := by
      simp only [selectDetalles, deleteOrdenRow, filter_other_filter_not _ _ _ hj]
    rw [e1, e2]
    cases selectOrden s j <;> rfl

/-- C7 at order 1 of `ejemploStore`, which is `Pendiente`. -/
theorem C7_delete_removes_order_witness :
    (selectOrden ejemploStore 1 =
      [⟨1, .str "ORD-1", .str "2024-01-01", 2, .fin 25, .str "Pendiente"⟩]) ∧
    deleteOrden none ejemploStore 1 = (.ok, ⟨[], [], 2, 3⟩) ∧
    (deleteOrden none ejemploStore 1).1 = .ok ∧
    ∀ (k : Option Nat) (s' : Store), deleteOrden k ejemploStore 1 = (.ok, s') →
      getOrden none s' 1 = (.status 404 "Orden no encontrada", s') ∧
      (∀ o ∈ s'.ordenes, o.id ≠ 1) ∧
      (∀ d ∈ s'.detalle_orden, d.orden_id ≠ 1) ∧
      ∀ j, j ≠ 1 → getOrden none s' j = ((getOrden none ejemploStore j).1, s') :=
  ⟨by decide, by decide,
    C7_delete_removes_order ejemploStore 1
      ⟨1, .str "ORD-1", .str "2024-01-01", 2, .fin 25, .str "Pendiente"⟩ []
      (by decide) (by decide)⟩

/-- C8: a successful `PUT /ordenes/:id` with line items `L` leaves an order
that `GET /ordenes/:id` reads back with the submitted `numero_orden` and
`fecha` and exactly the rows of `L`, in submission order, each owned by the
order (an absent property is stored as `NULL`); no previous line item of the
order remains, and the headers and line items of every other order are as
before. -/
theorem C8_replace_read_back (strNum : String → JSNum) (k : Option Nat) (s s' : Store)
    (id : Nat) (body : OrdenBody) (hwf : s.WF)
    (h : putOrden strNum k s id body = (.ok, s')) :
    ∃ (L : List Detalle) (orden : OrdenRow) (detalles : List DetalleRow),
      body.detalles = some (L.map Elem.obj) ∧
      getOrden none s' id = (.orden orden detalles, s') ∧
      orden.id = id ∧ orden.numero_orden = body.numero_orden ∧ orden.fecha = body.fecha ∧
      detalles.map
          (fun r => (r.orden_id, r.producto_id, r.cantidad, r.precio_unitario, r.precio_total)) =
        L.map (fun d => (id, sqlParam d.producto_id, sqlParam d.cantidad,
          sqlParam d.precio_unitario, sqlParam d.precio_total)) ∧
      (∀ r ∈ s.detalle_orden, r.orden_id = id → r ∉ s'.detalle_orden) ∧
      (∀ j, j ≠ id → selectDetalles s' j = selectDetalles s j ∧
        selectOrden s' j = selectOrden s j) := by
  obtain ⟨ds, ex, rest, -, hd, hn, hf, hsel, -, rfl⟩ := putOrden_ok strNum k s s' id body h
  have hg := get_after_put s id body.numero_orden body.fecha ds.length
    (sumaDetalles strNum ds) ds ex rest hsel
  refine ⟨ds, _, _, hd, hg, ?_, ?_, ?_, rowsFrom_fields _ _ _, ?_, ?_⟩
  · exact selectOrden_id s id ex rest hsel
  · exact sqlParam_of_truthy _ hn
  · exact sqlParam_of_truthy _ hf
  · intro r hr hrid hmem
    simp only [insertMany_eq, deleteDetalles, updateOrden, List.mem_append, List.mem_filter] at hmem
    rcases hmem with hmem | hmem
    · simp [hrid] at hmem
    · have h1 := (rowsFrom_orden_id _ _ _ r hmem).2
      have h2 := (hwf.2 r hr).2
      omega
  · intro j hj
    exact others_after_put s id j _ _ _ _ ds hj

/-- C8 at order 1 of `ejemploStore`, replaced by the one line item of
`ejemploBody2`. -/
theorem C8_replace_read_back_witness :
    (ejemploStore.WF ∧
      putOrden digitsToNumber none ejemploStore 1 ejemploBody2 = (.ok, ejemploStore2)) ∧
    (getOrden none ejemploStore2 1).1 =
      .orden ⟨1, .str "ORD-1b", .str "2024-02-02", 1, .fin 7, .str "Pendiente"⟩
        [⟨3, 1, .num 9, .num 1, .num 7, .num 7⟩] ∧
    ∃ (L : List Detalle) (orden : OrdenRow) (detalles : List DetalleRow),
      ejemploBody2.detalles = some (L.map Elem.obj) ∧
      getOrden none ejemploStore2 1 = (.orden orden detalles, ejemploStore2) ∧
      orden.id = 1 ∧ orden.numero_orden = ejemploBody2.numero_orden ∧
      orden.fecha = ejemploBody2.fecha ∧
      detalles.map
          (fun r => (r.orden_id, r.producto_id, r.cantidad, r.precio_unitario, r.precio_total)) =
        L.map (fun d => (1, sqlParam d.producto_id, sqlParam d.cantidad,
          sqlParam d.precio_unitario, sqlParam d.precio_total)) ∧
      (∀ r ∈ ejemploStore.detalle_orden, r.orden_id = 1 → r ∉ ejemploStore2.detalle_orden) ∧
      (∀ j, j ≠ 1 → selectDetalles ejemploStore2 j = selectDetalles ejemploStore j ∧
        selectOrden ejemploStore2 j = selectOrden ejemploStore j) :=
  ⟨⟨by decide, by decide⟩, by decide,
    C8_replace_read_back digitsToNumber none ejemploStore ejemploStore2 1 ejemploBody2
      (by decide) (by decide)⟩

end Ordenes
